import Mathlib

/-!
Shallow embedding of the omsflow order-management core
(src/omsflow/models/order.py, src/omsflow/validation/engine.py,
src/omsflow/monitoring/lifecycle.py, src/omsflow/core/oms.py),
with theorems settling the specification claims about it.

Python floats are modelled as rationals (ℚ); Python `None`/optional
values as `Option`; a Python `dict` keyed by strings as an association
list; an exception raised by a coroutine as `Except.error`.
-/

namespace OmsFlow

/-! ## Data model (src/omsflow/models/order.py) -/

/-- `OrderStatus(str, Enum)` from models/order.py. -/
inductive OrderStatus where
  | pending
  | validated
  | submitted
  | partially_filled
  | filled
  | cancelled
  | rejected
  | error
  deriving DecidableEq, Repr

/-- `TimeInForce(str, Enum)` from models/order.py. -/
inductive TimeInForce where
  | day
  | gtc
  | ioc
  | fok
  deriving DecidableEq, Repr

/-- `OrderType(str, Enum)` from models/order.py.  It is a `str` subclass,
so the comparison `order.order_type == "MARKET"` in the price rule is a
genuine equality test with the MARKET member. -/
inductive OrderType where
  | market
  | limit
  | twap
  | vwap
  deriving DecidableEq, Repr

/-- `SecurityType(str, Enum)` from models/order.py. -/
inductive SecurityType where
  | equity
  | future
  | option
  | forex
  deriving DecidableEq, Repr

/-- `Order` (pydantic model) from models/order.py.  `order_id` is kept in
its string form (the code keys every dict by `str(order.order_id)`).
Timestamps and the metadata mapping are not read by any of the modelled
operations and are omitted. -/
structure Order where
  order_id : String
  client_order_id : String
  symbol : String
  security_type : SecurityType
  side : String
  quantity : ℚ
  order_type : OrderType
  time_in_force : TimeInForce
  price : Option ℚ := none
  status : OrderStatus := OrderStatus.pending
  deriving DecidableEq, Repr

/-- `OrderValidationResult` from models/order.py. -/
structure OrderValidationResult where
  is_valid : Bool
  errors : List String := []
  warnings : List String := []
  deriving DecidableEq, Repr

/-- `OrderExecutionResult` from models/order.py (timestamp omitted:
never read).  `status` carries the broker-reported status interpreted by
the monitor (`result.status` in lifecycle.py). -/
structure OrderExecutionResult where
  success : Bool
  order_id : String
  execution_id : Option String := none
  error_message : Option String := none
  broker_order_id : Option String := none
  status : OrderStatus := OrderStatus.pending
  deriving DecidableEq, Repr

/-! ## Validation rules (src/omsflow/validation/engine.py)

The `context` dict: the rules read only the keys `market_price` and
`current_position`; other keys (e.g. `broker_refdata`) are never read by
a rule and are not modelled. -/

/-- The validation context bag: `context.get("market_price")` and
`context.get("current_position", 0)` are the only reads. `none` models
an absent key (or a key holding Python `None`). -/
structure Context where
  market_price : Option ℚ := none
  current_position : Option ℚ := none
  deriving DecidableEq, Repr

/-- Python truthiness test on an optional float: `not x` is `True` when
`x` is `None` or `0.0`.  Used by `if not market_price`, `if not
order.price` and `order.price or ...` in engine.py. -/
def pyFalsy (v : Option ℚ) : Bool :=
  match v with
  | none => true
  | some x => decide (x = 0)

/-- The error string of the deviation branch of `PriceValidationRule`.
The Python f-string formats both numbers as two-decimal percentages;
here they are kept as exact rationals. -/
def priceDeviationMsg (deviation max_price_deviation : ℚ) : String :=
  "Price deviation " ++ toString deviation ++ " exceeds maximum "
    ++ toString max_price_deviation

/-- `PriceValidationRule.validate` (engine.py lines 22-46), with the
rule's `max_price_deviation` field passed explicitly. -/
def priceValidationRule (max_price_deviation : ℚ) (order : Order)
    (context : Context) : OrderValidationResult :=
  if order.order_type = OrderType.market then
    { is_valid := true }
  else if pyFalsy context.market_price then
    { is_valid := false, errors := ["Market price not available for validation"] }
  else if pyFalsy order.price then
    { is_valid := false, errors := ["Price is required for limit orders"] }
  else
    let market_price := context.market_price.getD 0
    let price := order.price.getD 0
    let deviation := |price - market_price| / market_price
    if deviation > max_price_deviation then
      { is_valid := false, errors := [priceDeviationMsg deviation max_price_deviation] }
    else
      { is_valid := true }

/-- The error string of the failing branch of `PositionLimitRule`. -/
def positionLimitMsg (order_value max_position_value : ℚ) : String :=
  "Order value " ++ toString order_value ++ " would exceed position limit "
    ++ toString max_position_value

/-- `order.price or context.get("market_price", 0)` from
`PositionLimitRule.validate`: Python `or` yields the right operand when
the left is `None` or `0.0`. -/
def effectivePrice (price market_price : Option ℚ) : ℚ :=
  if pyFalsy price then market_price.getD 0 else price.getD 0

/-- `PositionLimitRule.validate` (engine.py lines 55-68), with the
rule's `max_position_value` field passed explicitly. -/
def positionLimitRule (max_position_value : ℚ) (order : Order)
    (context : Context) : OrderValidationResult :=
  let current_position := context.current_position.getD 0
  let order_value := order.quantity * effectivePrice order.price context.market_price
  if current_position + order_value > max_position_value then
    { is_valid := false, errors := [positionLimitMsg order_value max_position_value] }
  else
    { is_valid := true }

/-! ## Validation engine (src/omsflow/validation/engine.py) -/

/-- A registered `ValidationRule`: its `validate` coroutine either
returns an `OrderValidationResult` or raises (modelled as
`Except.error` carrying the exception message). -/
def Rule : Type := Order → Context → Except String OrderValidationResult

/-- A rule that always returns, built from a pure rule body. -/
def ruleOf (f : Order → Context → OrderValidationResult) : Rule :=
  fun o c => Except.ok (f o c)

/-- The `for rule in self.rules` loop of
`ValidationEngine.validate_order`: each `await rule.validate(order,
context)` is unguarded, so an exception from a rule propagates out of
the engine (`Except` bind). Accumulates `all_errors` / `all_warnings`. -/
def runRules (order : Order) (context : Context) :
    List Rule → List String → List String →
    Except String (List String × List String)
  | [], all_errors, all_warnings => Except.ok (all_errors, all_warnings)
  | rule :: rest, all_errors, all_warnings =>
    match rule order context with
    | Except.error e => Except.error e
    | Except.ok result =>
        runRules order context rest (all_errors ++ result.errors)
          (all_warnings ++ result.warnings)

/-- `ValidationEngine.validate_order` (engine.py lines 81-98): run every
registered rule in registration order, concatenate errors and warnings,
return a single aggregated result (valid iff no errors). -/
def validate_order (rules : List Rule) (order : Order) (context : Context) :
    Except String OrderValidationResult :=
  match runRules order context rules [] [] with
  | Except.error e => Except.error e
  | Except.ok (all_errors, all_warnings) =>
      Except.ok
        { is_valid := all_errors.length == 0
          errors := all_errors
          warnings := all_warnings }

/-! ## Order Lifecycle Manager (src/omsflow/monitoring/lifecycle.py)

`active_orders: Dict[str, Order]` is an association list with unique
keys; `_monitoring_tasks: Set[asyncio.Task]` is the list of order
identifiers whose monitoring tasks have been spawned and not yet
finished or cancelled (each `_monitor_order(order)` task is identified
by the order it polls). -/

/-- Statuses for which `add_order` / `start_monitoring` spawn a
monitoring task: `order.status in [OrderStatus.SUBMITTED,
OrderStatus.PARTIALLY_FILLED]`. -/
def spawnsMonitor (s : OrderStatus) : Bool :=
  s = OrderStatus.submitted || s = OrderStatus.partially_filled

/-- The Lifecycle Manager's mutable state (`max_retries`, `retry_delay`
and the broker/account handles are configuration, not state). -/
structure LifecycleState where
  active_orders : List (String × Order) := []
  monitoring_tasks : List String := []
  deriving DecidableEq, Repr

/-- Python `dict[key] = value`: replace the entry if the key is present,
otherwise append it. -/
def dictInsert (key : String) (value : Order) :
    List (String × Order) → List (String × Order)
  | [] => [(key, value)]
  | (k, v) :: rest =>
      if k = key then (key, value) :: rest
      else (k, v) :: dictInsert key value rest

/-- Python `key in dict` on an association list. -/
def dictContains (key : String) (d : List (String × Order)) : Bool :=
  d.any (fun p => p.1 = key)

/-- Python `del dict[key]` (under the unique-key invariant). -/
def dictRemove (key : String) (d : List (String × Order)) :
    List (String × Order) :=
  d.filter (fun p => p.1 ≠ key)

/-- `OrderLifecycleManager.add_order` (lifecycle.py lines 127-135):
store the order under `str(order.order_id)` and, when its status is
SUBMITTED or PARTIALLY_FILLED, spawn a fresh monitoring task for it —
unconditionally, even if a task for that identifier is already live. -/
def add_order (s : LifecycleState) (order : Order) : LifecycleState :=
  { active_orders := dictInsert order.order_id order s.active_orders
    monitoring_tasks :=
      if spawnsMonitor order.status then s.monitoring_tasks ++ [order.order_id]
      else s.monitoring_tasks }

/-- `OrderLifecycleManager.remove_order` (lifecycle.py lines 137-142):
delete the entry if present; the monitoring-task set is not touched
(the task, if any, is not cancelled). -/
def remove_order (s : LifecycleState) (order_id : String) : LifecycleState :=
  if dictContains order_id s.active_orders then
    { s with active_orders := dictRemove order_id s.active_orders }
  else s

/-- `OrderLifecycleManager.start_monitoring` (lifecycle.py lines 49-55):
spawn a monitor for every active order in SUBMITTED/PARTIALLY_FILLED
status. -/
def start_monitoring (s : LifecycleState) : LifecycleState :=
  { s with
    monitoring_tasks := s.monitoring_tasks ++
      ((s.active_orders.filter (fun p => spawnsMonitor p.2.status)).map
        (fun p => p.1)) }

/-- `OrderLifecycleManager.stop_monitoring` (lifecycle.py lines 57-62):
cancel every task, await them (suppressing cancellation), clear the
set. -/
def stop_monitoring (s : LifecycleState) : LifecycleState :=
  { s with monitoring_tasks := [] }

/-- One `add_order` or `remove_order` call, for reasoning about
arbitrary call sequences. -/
inductive LifecycleOp where
  | add (order : Order)
  | remove (order_id : String)
  deriving DecidableEq, Repr

/-- Apply one call to the manager state. -/
def applyOp (s : LifecycleState) : LifecycleOp → LifecycleState
  | LifecycleOp.add order => add_order s order
  | LifecycleOp.remove order_id => remove_order s order_id

/-- Run a sequence of `add_order`/`remove_order` calls. -/
def runOps (s : LifecycleState) : List LifecycleOp → LifecycleState
  | [] => s
  | op :: rest => runOps (applyOp s op) rest

/-- Whether a call is an `add_order` of the given identifier with a
monitor-spawning status (the calls that create tasks). -/
def isSpawningAdd (order_id : String) : LifecycleOp → Bool
  | LifecycleOp.add order => order.order_id = order_id && spawnsMonitor order.status
  | LifecycleOp.remove _ => false

/-! ## The per-order monitor (`OrderLifecycleManager._monitor_order`,
lifecycle.py lines 64-125)

Each loop iteration sleeps, then calls
`broker.get_order_status(str(order.order_id), account)`.  One
`MonitorEvent` is what that iteration experiences: the call returns a
result, or the iteration raises, or the task is cancelled (mid-sleep or
mid-call).  The loop is run against a finite event trace; an exhausted
trace means the monitor is still looping. -/

/-- What one monitoring iteration experiences. -/
inductive MonitorEvent where
  | query (result : OrderExecutionResult)
  | exn (msg : String)
  | cancelled
  deriving DecidableEq, Repr

/-- Why (or whether) the monitor loop ended. -/
inductive MonitorExit where
  | retriesExhausted
  | filled
  | cancelled
  | exception
  | running
  deriving DecidableEq, Repr

/-- The observable outcome of a monitor run: the final value of the
shared `order.status` field, how the loop ended, how many times the
`order_status_check_failed` failure report (`logger.error` at retry
exhaustion) was emitted, how many times the `order_monitoring_error`
report was emitted, and the final `retry_count`. -/
structure MonitorOutcome where
  final_status : OrderStatus
  exitReason : MonitorExit
  status_fail_reports : Nat
  monitor_error_reports : Nat
  final_retry : Nat
  deriving DecidableEq, Repr

/-- The `while True` body of `_monitor_order`, iterated over an event
trace.  State threaded between iterations: `retry_count` (never reset)
and the order's status.  On a failed query the counter is incremented
and, once `retry_count >= max_retries`, the failure is reported once
and the loop breaks (the active-order set is never touched).  On a
successful query carrying an execution id the status becomes FILLED and
the loop breaks; otherwise the status is set to the reported one (a
no-op when equal) and the loop continues.  `CancelledError` breaks the
loop; any other exception is reported and breaks the loop. -/
def monitor_loop (max_retries : Nat) :
    Nat → OrderStatus → List MonitorEvent → MonitorOutcome
  | retry_count, status, [] =>
      ⟨status, MonitorExit.running, 0, 0, retry_count⟩
  | retry_count, status, event :: rest =>
    match event with
    | MonitorEvent.cancelled =>
        ⟨status, MonitorExit.cancelled, 0, 0, retry_count⟩
    | MonitorEvent.exn _ =>
        ⟨status, MonitorExit.exception, 0, 1, retry_count⟩
    | MonitorEvent.query result =>
        if result.success = false then
          if retry_count + 1 ≥ max_retries then
            ⟨status, MonitorExit.retriesExhausted, 1, 0, retry_count + 1⟩
          else
            monitor_loop max_retries (retry_count + 1) status rest
        else if result.execution_id.isSome then
          ⟨OrderStatus.filled, MonitorExit.filled, 0, 0, retry_count⟩
        else
          monitor_loop max_retries retry_count result.status rest

/-- The monitor's only effect on the shared Lifecycle Manager state: it
writes `order.status` through its reference to the shared `Order`
object (visible in `active_orders` while the entry is present), and it
never inserts into or deletes from `active_orders`. -/
def monitorStateEffect (s : LifecycleState) (order_id : String)
    (out : MonitorOutcome) : LifecycleState :=
  { s with
    active_orders := s.active_orders.map (fun p =>
      if p.1 = order_id then (p.1, { p.2 with status := out.final_status })
      else p) }

/-! ## Order Management System orchestrator (src/omsflow/core/oms.py) -/

/-- The orchestrator's mutable state: the `_running` flag, whether the
order source and broker connections are established, whether the
`_process_orders` ingestion task exists and is alive, and the owned
Lifecycle Manager state. -/
structure OMSState where
  running : Bool := false
  source_connected : Bool := false
  broker_connected : Bool := false
  processor_task : Bool := false
  lifecycle : LifecycleState := {}
  deriving DecidableEq, Repr

/-- `OrderManagementSystem.start` (oms.py lines 31-46) when both
`connect()` calls succeed: no-op if already running, else set
`_running`, connect source then broker, start monitoring, and create
the ingestion task. -/
def oms_start (s : OMSState) : OMSState :=
  if s.running then s
  else
    { running := true
      source_connected := true
      broker_connected := true
      processor_task := true
      lifecycle := start_monitoring s.lifecycle }

/-- `OrderManagementSystem.stop` (oms.py lines 48-68) when both
`disconnect()` calls succeed: no-op if already stopped, else clear
`_running`, cancel and await the ingestion task, stop monitoring, and
disconnect both collaborators. -/
def oms_stop (s : OMSState) : OMSState :=
  if s.running = false then s
  else
    { running := false
      source_connected := false
      broker_connected := false
      processor_task := false
      lifecycle := stop_monitoring s.lifecycle }

/-- `OrderManagementSystem.start` with fallible collaborator
connections.  `source_ok` / `broker_ok` say whether
`order_source.connect()` / `broker.connect()` would succeed.  Returns
the state as left by the call together with `true` when the call raised
(the exception from a failed connect propagates to the caller).  The
method sets `self._running = True` BEFORE attempting either
connection. -/
def oms_start_fallible (source_ok broker_ok : Bool) (s : OMSState) :
    OMSState × Bool :=
  if s.running then (s, false)
  else
    let s1 := { s with running := true }
    if source_ok = false then (s1, true)
    else
      let s2 := { s1 with source_connected := true }
      if broker_ok = false then (s2, true)
      else
        ({ s2 with
            broker_connected := true
            processor_task := true
            lifecycle := start_monitoring s2.lifecycle }, false)

/-! ## The ingestion loop body (`OrderManagementSystem._process_orders`,
oms.py lines 70-115)

One iteration of `async for order in self.order_source.stream_orders()`.
The whole body is wrapped in `except Exception: continue`, so a raising
validation rule only skips the order.  Crucially, the invalid branch is

    if not validation_result.is_valid:
        for error in validation_result.errors:
            continue

whose `continue` belongs to the inner `for` loop and is a no-op, after
which control falls through to `broker.submit_order`. -/

/-- What one ingestion-loop iteration did with its order. -/
structure ProcessOutcome where
  submit_called : Bool
  order_added : Bool
  order_acknowledged : Bool
  deriving DecidableEq, Repr

/-- One iteration of the ingestion loop over one order:
validation via the engine with the given rules and context, then
(unconditionally, see above) submission via the broker (`submit` is the
broker's `submit_order` response for this order), then on success
registration with the Lifecycle Manager and acknowledgment at the
source. -/
def process_one (rules : List Rule) (context : Context)
    (submit : Order → OrderExecutionResult) (order : Order) :
    ProcessOutcome :=
  match validate_order rules order context with
  | Except.error _ => ⟨false, false, false⟩
  | Except.ok _validation_result =>
      let execution_result := submit order
      if execution_result.success then ⟨true, true, true⟩
      else ⟨true, false, false⟩

/-! ## Concrete fixtures used in counterexamples and witnesses -/

/-- A limit order (order_type LIMIT) with the given price and quantity. -/
def mkLimitOrder (price : Option ℚ) (quantity : ℚ) : Order :=
  { order_id := "ord-1"
    client_order_id := "cli-1"
    symbol := "AAPL"
    security_type := SecurityType.equity
    side := "BUY"
    quantity := quantity
    order_type := OrderType.limit
    time_in_force := TimeInForce.day
    price := price }

/-- A limit order already in SUBMITTED status (as after broker
acceptance, when the ingestion loop hands it to `add_order`). -/
def submittedOrder : Order :=
  { mkLimitOrder (some 100) 10 with status := OrderStatus.submitted }

/-- The context `_process_orders` passes to the engine:
`{"broker_refdata": ...}` — it contains neither `market_price` nor
`current_position`. -/
def ingestionContext : Context := {}

/-- A broker whose `submit_order` accepts every order. -/
def brokerAccepts (order : Order) : OrderExecutionResult :=
  { success := true
    order_id := order.order_id
    broker_order_id := some "BRK-1"
    status := OrderStatus.submitted }

/-- Effective price exactly as claim C6 words it: the order's limit
price if present, else the context's market price, else 0 (for
comparison against the code's `effectivePrice`). -/
def claimedEffectivePrice (price market_price : Option ℚ) : ℚ :=
  match price with
  | some p => p
  | none => market_price.getD 0

/-- Effective price as the amended claim C6 words it: the order's limit
price if present and nonzero, else the context's market price, else
0. -/
def amendedEffectivePrice (price market_price : Option ℚ) : ℚ :=
  match price with
  | some p => if p ≠ 0 then p else market_price.getD 0
  | none => market_price.getD 0

/-! ## Claim C5 — price-deviation rule -/

/-- The deviation error message never coincides with the
price-required error message, whatever the interpolated numbers (the
strings already differ at their seventh character). -/
lemma priceDeviationMsg_ne_required (d x : ℚ) :
    priceDeviationMsg d x ≠ "Price is required for limit orders" := by
  intro h
  have hdata : ((("Price deviation ".data ++ (toString d).data)
        ++ " exceeds maximum ".data) ++ (toString x).data)
      = "Price is required for limit orders".data := by
    have hd := congrArg String.data h
    simp only [priceDeviationMsg, String.data_append] at hd
    exact hd
  have hlen1 : 6 < ("Price deviation ".data).length := by decide
  have hlen2 : 6 < ("Price deviation ".data ++ (toString d).data).length := by
    rw [List.length_append]
    exact Nat.lt_of_lt_of_le hlen1 (Nat.le_add_right _ _)
  have hlen3 : 6 < (("Price deviation ".data ++ (toString d).data)
      ++ " exceeds maximum ".data).length := by
    rw [List.length_append]
    exact Nat.lt_of_lt_of_le hlen2 (Nat.le_add_right _ _)
  have h6 := congrArg (fun l => l[6]?) hdata
  simp only [List.getElem?_append_left hlen3, List.getElem?_append_left hlen2,
    List.getElem?_append_left hlen1] at h6
  exact absurd h6 (by decide)

/-- C5 counterexample: a LIMIT order whose price is PRESENT but equal
to 0, with market price 100 and bound 1/20.  The claim says the rule
returns invalid with a deviation error exactly when
|price − market| / market > bound (here 1 > 1/20, so it should);
the code instead returns the "Price is required" hard error, because
`if not order.price` treats the present zero price as missing. -/
theorem priceRule_zero_price_counterexample :
    ¬ ((priceValidationRule (1/20) (mkLimitOrder (some 0) 10)
          { market_price := some 100 } =
        { is_valid := false
          errors := [priceDeviationMsg (|(0 : ℚ) - 100| / 100) (1/20)] })
      ↔ |(0 : ℚ) - 100| / 100 > 1/20) := by
  intro h
  have habs : |(0 : ℚ) - 100| = 100 := by
    rw [zero_sub, abs_neg, abs_of_nonneg (by norm_num : (0 : ℚ) ≤ 100)]
  have hgt : |(0 : ℚ) - 100| / 100 > 1/20 := by
    rw [habs]; norm_num
  have hres := h.mpr hgt
  have hactual : priceValidationRule (1/20) (mkLimitOrder (some 0) 10)
      { market_price := some 100 } =
      { is_valid := false, errors := ["Price is required for limit orders"] } := by
    norm_num [priceValidationRule, mkLimitOrder, pyFalsy]
    decide
  rw [hactual] at hres
  have herr := congrArg OrderValidationResult.errors hres
  simp only [List.cons.injEq] at herr
  exact priceDeviationMsg_ne_required _ _ herr.1.symm

/-- C5 (amended): for a LIMIT order whose price and market price are
present AND NONZERO, the rule returns invalid with the deviation error
exactly when |price − market| / market strictly exceeds the bound; a
deviation equal to the bound is accepted; a missing OR ZERO market
price, and a missing OR ZERO order price, are each a hard error. -/
theorem priceRule_deviation_amended (max_price_deviation p m q : ℚ)
    (hp : p ≠ 0) (hm : m ≠ 0) :
    (priceValidationRule max_price_deviation (mkLimitOrder (some p) q)
        { market_price := some m } =
      { is_valid := false
        errors := [priceDeviationMsg (|p - m| / m) max_price_deviation] }
      ↔ |p - m| / m > max_price_deviation) ∧
    (|p - m| / m ≤ max_price_deviation →
      priceValidationRule max_price_deviation (mkLimitOrder (some p) q)
          { market_price := some m } =
        { is_valid := true }) ∧
    (priceValidationRule max_price_deviation (mkLimitOrder (some p) q)
        { market_price := none } =
      { is_valid := false
        errors := ["Market price not available for validation"] }) ∧
    (priceValidationRule max_price_deviation (mkLimitOrder (some p) q)
        { market_price := some 0 } =
      { is_valid := false
        errors := ["Market price not available for validation"] }) ∧
    (priceValidationRule max_price_deviation (mkLimitOrder none q)
        { market_price := some m } =
      { is_valid := false
        errors := ["Price is required for limit orders"] }) ∧
    (priceValidationRule max_price_deviation (mkLimitOrder (some 0) q)
        { market_price := some m } =
      { is_valid := false
        errors := ["Price is required for limit orders"] }) := by
  refine ⟨?_, ?_, ?_, ?_, ?_, ?_⟩
  · by_cases hgt : |p - m| / m > max_price_deviation <;>
      simp [priceValidationRule, mkLimitOrder, pyFalsy, hm, hp, hgt]
  · intro hle
    simp [priceValidationRule, mkLimitOrder, pyFalsy, hm, hp, not_lt.mpr hle]
  · simp [priceValidationRule, mkLimitOrder, pyFalsy, hp]
  · simp [priceValidationRule, mkLimitOrder, pyFalsy, hp]
  · simp [priceValidationRule, mkLimitOrder, pyFalsy, hm]
  · simp [priceValidationRule, mkLimitOrder, pyFalsy, hm]

/-- C5 witness, at the spec's own scenario: limit price 100, market
price 103, bound 1/20; the deviation 3/103 is within the bound and the
order passes. -/
theorem priceRule_deviation_amended_witness :
    (100 : ℚ) ≠ 0 ∧ (103 : ℚ) ≠ 0 ∧
    (priceValidationRule (1/20) (mkLimitOrder (some 100) 10)
        { market_price := some 103 } =
      { is_valid := false
        errors := [priceDeviationMsg (|(100 : ℚ) - 103| / 103) (1/20)] }
      ↔ |(100 : ℚ) - 103| / 103 > 1/20) ∧
    (|(100 : ℚ) - 103| / 103 ≤ 1/20 →
      priceValidationRule (1/20) (mkLimitOrder (some 100) 10)
          { market_price := some 103 } =
        { is_valid := true }) := by
  have h := priceRule_deviation_amended (1/20) 100 103 10
    (by norm_num) (by norm_num)
  exact ⟨by norm_num, by norm_num, h.1, h.2.1⟩

/-! ## Claim C6 — position-limit rule -/

/-- C6 counterexample: an order with a PRESENT zero price, quantity 1,
market price 10, current position absent, ceiling 5.  The claim's
effective price is the present limit price 0, so the projected position
0 does not exceed 5 and the rule should pass; the code's
`order.price or context.get("market_price", 0)` treats the zero price
as absent, uses 10, and fails. -/
theorem positionRule_zero_price_counterexample :
    ¬ (((positionLimitRule 5 (mkLimitOrder (some 0) 1)
          { market_price := some 10 }).is_valid = false)
      ↔ (0 : ℚ) + 1 * claimedEffectivePrice (some 0) (some 10) > 5) := by
  intro h
  have hres : (positionLimitRule 5 (mkLimitOrder (some 0) 1)
      { market_price := some 10 }).is_valid = false := by
    norm_num [positionLimitRule, effectivePrice, pyFalsy, mkLimitOrder]
  have hclaim : ¬ ((0 : ℚ) + 1 * claimedEffectivePrice (some 0) (some 10) > 5) := by
    norm_num [claimedEffectivePrice]
  exact hclaim (h.mp hres)

/-- C6 (amended): for every order, the position-limit rule fails
exactly when currentPosition + quantity × effectivePrice strictly
exceeds the ceiling, where effectivePrice is the order's limit price if
present AND NONZERO, else the context's market price, else 0; the
boundary value itself passes. -/
theorem positionRule_amended (max_position_value cur : ℚ)
    (m : Option ℚ) (o : Order) :
    (positionLimitRule max_position_value o
        { market_price := m, current_position := some cur }).is_valid = false
      ↔ cur + o.quantity * amendedEffectivePrice o.price m
          > max_position_value := by
  have heff : effectivePrice o.price m = amendedEffectivePrice o.price m := by
    cases o.price with
    | none => rfl
    | some x =>
        by_cases hx : x = 0 <;>
          simp [effectivePrice, amendedEffectivePrice, pyFalsy, hx]
  have key : ∀ ov : ℚ,
      ((if cur + ov > max_position_value then
          ({ is_valid := false
             errors := [positionLimitMsg ov max_position_value] }
            : OrderValidationResult)
        else { is_valid := true }).is_valid = false)
        ↔ cur + ov > max_position_value := by
    intro ov
    split_ifs with h <;> simp [h]
  simp only [positionLimitRule, Option.getD_some, heff]
  exact key _

/-! ## Claim C7 — start/stop idempotence -/

/-- C7: with collaborator connect/disconnect succeeding, a second
consecutive `stop()` is a no-op (same end state as one call), and
likewise a second consecutive `start()`. -/
theorem oms_start_stop_idempotent (s : OMSState) :
    oms_stop (oms_stop s) = oms_stop s ∧
    oms_start (oms_start s) = oms_start s := by
  by_cases h : s.running <;> simp [oms_stop, oms_start, h]

/-! ## Claim C8 — failed start leaves the system marked running -/

/-- C8: `start()` sets `self._running = True` before attempting either
connection, so if connecting the source or the broker fails, the raised
call leaves the orchestrator marked running — a changed state — and any
subsequent `start()` (whatever its connections would do) returns
immediately as a no-op without retrying. -/
theorem oms_failed_start_marks_running (s : OMSState)
    (source_ok broker_ok a b : Bool) (hns : s.running = false)
    (hf : source_ok = false ∨ broker_ok = false) :
    (oms_start_fallible source_ok broker_ok s).2 = true ∧
    (oms_start_fallible source_ok broker_ok s).1.running = true ∧
    (oms_start_fallible source_ok broker_ok s).1 ≠ s ∧
    oms_start_fallible a b (oms_start_fallible source_ok broker_ok s).1 =
      ((oms_start_fallible source_ok broker_ok s).1, false) := by
  have key : (oms_start_fallible source_ok broker_ok s).2 = true ∧
      (oms_start_fallible source_ok broker_ok s).1.running = true := by
    cases source_ok with
    | false => simp [oms_start_fallible, hns]
    | true =>
        cases broker_ok with
        | false => simp [oms_start_fallible, hns]
        | true => simp at hf
  refine ⟨key.1, key.2, ?_, ?_⟩
  · intro heq
    have hrun : s.running = true := by
      rw [← heq]; exact key.2
    rw [hns] at hrun
    exact Bool.false_ne_true hrun
  · obtain ⟨-, k2⟩ := key
    generalize hX : (oms_start_fallible source_ok broker_ok s).1 = X at k2 ⊢
    unfold oms_start_fallible
    rw [if_pos k2]

/-- C8 witness: from the freshly constructed (stopped) system, a start
whose source connection fails. -/
theorem oms_failed_start_marks_running_witness :
    (({} : OMSState).running = false) ∧
    ((false = false ∨ true = false)) ∧
    ((oms_start_fallible false true {}).2 = true ∧
     (oms_start_fallible false true {}).1.running = true ∧
     (oms_start_fallible false true ({} : OMSState)).1 ≠ {} ∧
     oms_start_fallible true true (oms_start_fallible false true {}).1 =
       ((oms_start_fallible false true {}).1, false)) :=
  ⟨rfl, Or.inl rfl,
    oms_failed_start_marks_running {} false true true true rfl (Or.inl rfl)⟩

/-! ## Claim C1 — invalid orders and the ingestion loop -/

/-- C1 (code bug): in `_process_orders`, the invalid branch's
`continue` sits inside the inner `for error in validation_result.errors`
loop and is a no-op, so control falls through and
`broker.submit_order` IS called for an order whose aggregated
ValidationResult is invalid.  Shown at a concrete failing input: a
LIMIT order processed with the loop's own context (which carries no
market price), so validation aggregates one error, yet the broker
submit is invoked. -/
theorem invalid_order_still_submitted :
    (validate_order [ruleOf (priceValidationRule (1/20))]
        (mkLimitOrder (some 100) 10) ingestionContext =
      Except.ok
        { is_valid := false
          errors := ["Market price not available for validation"] }) ∧
    (process_one [ruleOf (priceValidationRule (1/20))] ingestionContext
        brokerAccepts (mkLimitOrder (some 100) 10)).submit_called = true :=
  ⟨rfl, rfl⟩

/-! ## Claim C2 — at most one monitor per tracked order -/

/-- C2 counterexample: re-adding an already-tracked SUBMITTED order (a
call sequence the claim explicitly covers) leaves the identifier
tracked with TWO live monitoring tasks: `add_order` spawns a monitor
unconditionally and neither it nor `remove_order` cancels the existing
task. -/
theorem duplicate_monitor_counterexample :
    dictContains submittedOrder.order_id
      (runOps {} [LifecycleOp.add submittedOrder,
        LifecycleOp.add submittedOrder]).active_orders = true ∧
    (runOps {} [LifecycleOp.add submittedOrder,
      LifecycleOp.add submittedOrder]).monitoring_tasks.count
        submittedOrder.order_id = 2 :=
  ⟨rfl, rfl⟩

/-- Live-monitor count after a call sequence: the monitors for an
identifier are exactly the spawning `add_order` calls of that
identifier, since no call in the `addOrder`/`removeOrder` alphabet ever
cancels one. -/
lemma runOps_monitor_count (order_id : String) :
    ∀ (ops : List LifecycleOp) (s : LifecycleState),
      (runOps s ops).monitoring_tasks.count order_id =
        s.monitoring_tasks.count order_id +
          ops.countP (isSpawningAdd order_id) := by
  intro ops
  induction ops with
  | nil => intro s; simp [runOps]
  | cons op rest ih =>
      intro s
      cases op with
      | add o =>
          simp only [runOps, applyOp, add_order, List.countP_cons, ih]
          by_cases hs : spawnsMonitor o.status
          · by_cases hid : o.order_id = order_id
            · simp [hs, hid, isSpawningAdd, List.count_append]
              omega
            · simp [hs, hid, isSpawningAdd, List.count_append,
                List.count_singleton']
          · simp [hs, isSpawningAdd]
      | remove rid =>
          simp only [runOps, applyOp, remove_order]
          by_cases hc : dictContains rid s.active_orders <;>
            simp [hc, ih, isSpawningAdd, List.countP_cons]

/-- C2 (amended): for every sequence of `add_order`/`remove_order`
calls in which an order identifier appears in at most one `add_order`
call with monitor-spawning status (SUBMITTED or PARTIALLY_FILLED),
that identifier has at most one live monitoring task.  Re-adding an
identifier with such status — whether still tracked or already removed
— duplicates its monitor, since no call cancels the existing task. -/
theorem at_most_one_monitor_amended (ops : List LifecycleOp)
    (order_id : String)
    (h : ops.countP (isSpawningAdd order_id) ≤ 1) :
    (runOps {} ops).monitoring_tasks.count order_id ≤ 1 := by
  rw [runOps_monitor_count]
  simpa using h

/-- C2 witness: one spawning add followed by a remove leaves at most
one monitor for the identifier. -/
theorem at_most_one_monitor_amended_witness :
    ([LifecycleOp.add submittedOrder,
        LifecycleOp.remove "ord-1"].countP (isSpawningAdd "ord-1") ≤ 1) ∧
    (runOps {} [LifecycleOp.add submittedOrder,
      LifecycleOp.remove "ord-1"]).monitoring_tasks.count "ord-1" ≤ 1 :=
  ⟨by decide, at_most_one_monitor_amended _ _ (by decide)⟩

/-! ## Claim C3 — engine totality -/

/-- A registered rule whose `validate` raises instead of returning. -/
def raisingRule : Rule := fun _ _ => Except.error "rule raised"

/-- C3 counterexample: with a raising rule registered, `validate_order`
does not return a ValidationResult — the exception propagates to the
caller, because the engine's rule loop has no exception handler. -/
theorem engine_exception_counterexample :
    ¬ ∃ result, validate_order [raisingRule] (mkLimitOrder (some 100) 10) {}
        = Except.ok result := by
  rintro ⟨result, hres⟩
  rw [show validate_order [raisingRule] (mkLimitOrder (some 100) 10) {} =
      Except.error "rule raised" from rfl] at hres
  exact Except.noConfusion hres

/-- If every registered rule returns, the engine's rule loop returns
the accumulated error and warning lists. -/
lemma runRules_total (order : Order) (context : Context) :
    ∀ (rules : List Rule) (acc_e acc_w : List String),
      (∀ rule ∈ rules, ∃ r, rule order context = Except.ok r) →
      ∃ pair, runRules order context rules acc_e acc_w = Except.ok pair := by
  intro rules
  induction rules with
  | nil => exact fun acc_e acc_w _ => ⟨(acc_e, acc_w), rfl⟩
  | cons rule rest ih =>
      intro acc_e acc_w h
      obtain ⟨r, hr⟩ := h rule (List.mem_cons_self _ _)
      obtain ⟨pair, hp⟩ := ih (acc_e ++ r.errors) (acc_w ++ r.warnings)
        (fun rl hm => h rl (List.mem_cons_of_mem _ hm))
      exact ⟨pair, by simp [runRules, hr, hp]⟩

/-- C3 (amended): for every order, every context and every set of
registered rules EACH OF WHICH RETURNS a result (no rule raises),
`validate_order` returns an aggregated ValidationResult, valid exactly
when the concatenated error list is empty.  A rule that raises instead
propagates its exception to the caller (see the counterexample). -/
theorem engine_total_amended (rules : List Rule) (order : Order)
    (context : Context)
    (h : ∀ rule ∈ rules, ∃ r, rule order context = Except.ok r) :
    ∃ result, validate_order rules order context = Except.ok result ∧
      (result.is_valid = true ↔ result.errors = []) := by
  obtain ⟨⟨es, ws⟩, hp⟩ := runRules_total order context rules [] [] h
  refine ⟨{ is_valid := es.length == 0, errors := es, warnings := ws },
    ?_, ?_⟩
  · simp [validate_order, hp]
  · simp [beq_iff_eq, List.length_eq_zero]

/-- C3 witness: the engine with the price rule registered, evaluated on
a limit order — the rule returns, so the engine returns an aggregated
result. -/
theorem engine_total_amended_witness :
    (∀ rule ∈ [ruleOf (priceValidationRule (1/20))],
        ∃ r, rule (mkLimitOrder (some 100) 10) ingestionContext
          = Except.ok r) ∧
    ∃ result, validate_order [ruleOf (priceValidationRule (1/20))]
        (mkLimitOrder (some 100) 10) ingestionContext = Except.ok result ∧
      (result.is_valid = true ↔ result.errors = []) := by
  have h : ∀ rule ∈ [ruleOf (priceValidationRule (1/20))],
      ∃ r, rule (mkLimitOrder (some 100) 10) ingestionContext
        = Except.ok r := by
    intro rule hrule
    simp only [List.mem_singleton] at hrule
    exact ⟨_, by rw [hrule]; rfl⟩
  exact ⟨h, engine_total_amended _ _ _ h⟩

/-! ## The monitor claims C4, C9, C10 -/

/-- An iteration whose status query returned a failure result
(`not result.success`). -/
def isFailQuery : MonitorEvent → Bool
  | MonitorEvent.query r => !r.success
  | _ => false

/-- An iteration whose status query succeeded without an execution id
(the monitor updates the status and keeps looping). -/
def isOkNoExecQuery : MonitorEvent → Bool
  | MonitorEvent.query r => r.success && r.execution_id.isNone
  | _ => false

/-- The monitor's state effect preserves the identifiers of the
active-order set: it can only rewrite an order's status, never insert
or delete an entry. -/
lemma monitorStateEffect_keys (s : LifecycleState) (order_id : String)
    (out : MonitorOutcome) :
    (monitorStateEffect s order_id out).active_orders.map Prod.fst =
      s.active_orders.map Prod.fst := by
  simp only [monitorStateEffect]
  induction s.active_orders with
  | nil => rfl
  | cons hd tl ih =>
      simp only [List.map_cons, ih, List.cons.injEq, and_true]
      by_cases h : hd.1 = order_id <;> simp [h]

/-- A run of consecutive failed status queries long enough to push the
retry counter to the bound terminates the monitor with one failure
report and the status untouched, whatever events would have followed. -/
lemma monitor_loop_fail_run (max_retries : Nat) :
    ∀ (fails : List MonitorEvent) (retry_count : Nat) (status : OrderStatus)
      (rest : List MonitorEvent),
      (∀ e ∈ fails, isFailQuery e = true) →
      1 ≤ fails.length →
      max_retries ≤ retry_count + fails.length →
      ∃ fr, monitor_loop max_retries retry_count status (fails ++ rest) =
        ⟨status, MonitorExit.retriesExhausted, 1, 0, fr⟩ := by
  intro fails
  induction fails with
  | nil => intro _ _ _ _ hlen _; exact absurd hlen (by decide)
  | cons e tail ih =>
      intro retry_count status rest hall hlen hge
      have he : isFailQuery e = true := hall e (List.mem_cons_self _ _)
      cases e with
      | cancelled => simp [isFailQuery] at he
      | exn msg => simp [isFailQuery] at he
      | query r =>
          have hrs : r.success = false := by
            simpa [isFailQuery] using he
          by_cases hc : retry_count + 1 ≥ max_retries
          · exact ⟨retry_count + 1, by simp [monitor_loop, hrs, hc]⟩
          · have htail : ∀ e ∈ tail, isFailQuery e = true :=
              fun e hm => hall e (List.mem_cons_of_mem _ hm)
            have hlen' : 1 ≤ tail.length := by
              simp only [List.length_cons] at hge
              omega
            have hge' : max_retries ≤ (retry_count + 1) + tail.length := by
              simp only [List.length_cons] at hge
              omega
            obtain ⟨fr, hfr⟩ := ih (retry_count + 1) status rest htail
              hlen' hge'
            exact ⟨fr, by simp [monitor_loop, hrs, hc, hfr]⟩

/-- C4: if the status query returns a failure result on `max_retries`
consecutive iterations, the monitor terminates by retry exhaustion,
reports the failure exactly once (the single terminal `logger.error`),
leaves the order's last committed status unchanged, and leaves the
active-order set untouched — the order remains in it. -/
theorem monitor_consecutive_failures (max_retries : Nat)
    (h : 0 < max_retries) (status : OrderStatus)
    (fails rest : List MonitorEvent)
    (hfails : ∀ e ∈ fails, isFailQuery e = true)
    (hlen : fails.length = max_retries) :
    (monitor_loop max_retries 0 status (fails ++ rest)).exitReason =
        MonitorExit.retriesExhausted ∧
    (monitor_loop max_retries 0 status
        (fails ++ rest)).status_fail_reports = 1 ∧
    (monitor_loop max_retries 0 status (fails ++ rest)).final_status =
        status ∧
    ∀ (s : LifecycleState) (order_id : String),
      (monitorStateEffect s order_id
          (monitor_loop max_retries 0 status
            (fails ++ rest))).active_orders.map Prod.fst =
        s.active_orders.map Prod.fst := by
  obtain ⟨fr, hfr⟩ := monitor_loop_fail_run max_retries fails 0 status rest
    hfails (by omega) (by omega)
  rw [hfr]
  exact ⟨rfl, rfl, rfl, fun s order_id => monitorStateEffect_keys s order_id _⟩

/-- A failed status-query result, as the broker returns it. -/
def failStatusResult : OrderExecutionResult :=
  { success := false
    order_id := "ord-1"
    error_message := some "status check timed out"
    status := OrderStatus.submitted }

/-- C4 witness: three consecutive failures with the default
`max_retries = 3`. -/
theorem monitor_consecutive_failures_witness :
    0 < 3 ∧
    (∀ e ∈ List.replicate 3 (MonitorEvent.query failStatusResult),
        isFailQuery e = true) ∧
    (List.replicate 3 (MonitorEvent.query failStatusResult)).length = 3 ∧
    ((monitor_loop 3 0 OrderStatus.submitted
        (List.replicate 3 (MonitorEvent.query failStatusResult)
          ++ [])).exitReason = MonitorExit.retriesExhausted ∧
      (monitor_loop 3 0 OrderStatus.submitted
        (List.replicate 3 (MonitorEvent.query failStatusResult)
          ++ [])).status_fail_reports = 1 ∧
      (monitor_loop 3 0 OrderStatus.submitted
        (List.replicate 3 (MonitorEvent.query failStatusResult)
          ++ [])).final_status = OrderStatus.submitted ∧
      ∀ (s : LifecycleState) (order_id : String),
        (monitorStateEffect s order_id
            (monitor_loop 3 0 OrderStatus.submitted
              (List.replicate 3 (MonitorEvent.query failStatusResult)
                ++ []))).active_orders.map Prod.fst =
          s.active_orders.map Prod.fst) :=
  ⟨by decide, by decide, by decide,
    monitor_consecutive_failures 3 (by decide) OrderStatus.submitted _ _
      (by decide) (by decide)⟩

/-- C9: a non-cancellation exception in a monitoring iteration
terminates the monitor immediately — whatever the current retry count
and the bound, so the `max_retries` machinery is bypassed — with one
monitoring-error report, the status unchanged, and the active-order
set untouched (the order remains in it). -/
theorem monitor_exception_terminates (max_retries retry_count : Nat)
    (status : OrderStatus) (msg : String) (rest : List MonitorEvent) :
    monitor_loop max_retries retry_count status
        (MonitorEvent.exn msg :: rest) =
      ⟨status, MonitorExit.exception, 0, 1, retry_count⟩ ∧
    ∀ (s : LifecycleState) (order_id : String),
      (monitorStateEffect s order_id
          (monitor_loop max_retries retry_count status
            (MonitorEvent.exn msg :: rest))).active_orders.map Prod.fst =
        s.active_orders.map Prod.fst :=
  ⟨rfl, fun s order_id => monitorStateEffect_keys s order_id _⟩

/-- Termination by retry exhaustion for any mixture of failed queries
and successful no-execution-id queries, once the cumulative failure
count reaches the bound: the counter is never reset on success. -/
lemma monitor_loop_mixed (max_retries : Nat) :
    ∀ (events : List MonitorEvent) (retry_count : Nat)
      (status : OrderStatus),
      (∀ e ∈ events, isFailQuery e = true ∨ isOkNoExecQuery e = true) →
      max_retries ≤ retry_count + events.countP isFailQuery →
      1 ≤ events.countP isFailQuery →
      ∃ st fr, monitor_loop max_retries retry_count status events =
        ⟨st, MonitorExit.retriesExhausted, 1, 0, fr⟩ := by
  intro events
  induction events with
  | nil =>
      intro _ _ _ _ hcount
      simp [List.countP_nil] at hcount
  | cons e tail ih =>
      intro retry_count status hall hge hcount
      have he := hall e (List.mem_cons_self _ _)
      cases e with
      | cancelled => simp [isFailQuery, isOkNoExecQuery] at he
      | exn msg => simp [isFailQuery, isOkNoExecQuery] at he
      | query r =>
          have htail : ∀ e ∈ tail,
              isFailQuery e = true ∨ isOkNoExecQuery e = true :=
            fun e hm => hall e (List.mem_cons_of_mem _ hm)
          by_cases hrs : r.success = false
          · have hcnt : (MonitorEvent.query r :: tail).countP isFailQuery =
                tail.countP isFailQuery + 1 := by
              simp [List.countP_cons, isFailQuery, hrs]
            by_cases hc : retry_count + 1 ≥ max_retries
            · exact ⟨status, retry_count + 1,
                by simp [monitor_loop, hrs, hc]⟩
            · have h1 : max_retries ≤
                  (retry_count + 1) + tail.countP isFailQuery := by
                rw [hcnt] at hge; omega
              have h2 : 1 ≤ tail.countP isFailQuery := by
                rw [hcnt] at hge; omega
              obtain ⟨st, fr, hfr⟩ := ih (retry_count + 1) status htail h1 h2
              exact ⟨st, fr, by simp [monitor_loop, hrs, hc, hfr]⟩
          · have hok : isOkNoExecQuery (MonitorEvent.query r) = true := by
              rcases he with hf | hok
              · exact absurd hf (by simp [isFailQuery, hrs])
              · exact hok
            have hsucc : r.success = true := by
              simp only [isOkNoExecQuery, Bool.and_eq_true] at hok
              exact hok.1
            have hnone : r.execution_id = none := by
              simp only [isOkNoExecQuery, Bool.and_eq_true] at hok
              exact Option.isNone_iff_eq_none.mp hok.2
            have hcnt : (MonitorEvent.query r :: tail).countP isFailQuery =
                tail.countP isFailQuery := by
              simp [List.countP_cons, isFailQuery, hsucc]
            obtain ⟨st, fr, hfr⟩ := ih retry_count r.status htail
              (by rw [hcnt] at hge; omega) (by rw [hcnt] at hcount; omega)
            exact ⟨st, fr, by simp [monitor_loop, hsucc, hnone, hfr]⟩

/-- C10: the retry counter is never reset by a successful status query,
so the monitor terminates by retry exhaustion once `max_retries`
status-query failure results have accumulated over its lifetime — even
when those failures are separated by successful queries — and the
failure is reported once. -/
theorem monitor_cumulative_retries (max_retries : Nat)
    (h : 0 < max_retries) (status : OrderStatus)
    (events : List MonitorEvent)
    (hev : ∀ e ∈ events, isFailQuery e = true ∨ isOkNoExecQuery e = true)
    (hcount : max_retries ≤ events.countP isFailQuery) :
    (monitor_loop max_retries 0 status events).exitReason =
        MonitorExit.retriesExhausted ∧
    (monitor_loop max_retries 0 status events).status_fail_reports = 1 := by
  obtain ⟨st, fr, hfr⟩ := monitor_loop_mixed max_retries events 0 status hev
    (by omega) (by omega)
  rw [hfr]
  exact ⟨rfl, rfl⟩

/-- A successful status-query result with no execution id, reporting
PARTIALLY_FILLED. -/
def okPartialResult : OrderExecutionResult :=
  { success := true
    order_id := "ord-1"
    execution_id := none
    status := OrderStatus.partially_filled }

/-- C10 witness: three failures separated by successful queries
(fail, ok, fail, ok, fail) with `max_retries = 3` — non-consecutive
failures still exhaust the retries. -/
theorem monitor_cumulative_retries_witness :
    0 < 3 ∧
    (∀ e ∈ [MonitorEvent.query failStatusResult,
        MonitorEvent.query okPartialResult,
        MonitorEvent.query failStatusResult,
        MonitorEvent.query okPartialResult,
        MonitorEvent.query failStatusResult],
      isFailQuery e = true ∨ isOkNoExecQuery e = true) ∧
    3 ≤ [MonitorEvent.query failStatusResult,
        MonitorEvent.query okPartialResult,
        MonitorEvent.query failStatusResult,
        MonitorEvent.query okPartialResult,
        MonitorEvent.query failStatusResult].countP isFailQuery ∧
    ((monitor_loop 3 0 OrderStatus.submitted
        [MonitorEvent.query failStatusResult,
          MonitorEvent.query okPartialResult,
          MonitorEvent.query failStatusResult,
          MonitorEvent.query okPartialResult,
          MonitorEvent.query failStatusResult]).exitReason =
        MonitorExit.retriesExhausted ∧
      (monitor_loop 3 0 OrderStatus.submitted
        [MonitorEvent.query failStatusResult,
          MonitorEvent.query okPartialResult,
          MonitorEvent.query failStatusResult,
          MonitorEvent.query okPartialResult,
          MonitorEvent.query failStatusResult]).status_fail_reports = 1) :=
  ⟨by decide, by decide, by decide,
    monitor_cumulative_retries 3 (by decide) OrderStatus.submitted _
      (by decide) (by decide)⟩

end OmsFlow
